import Mathlib

/-!
Verification of the provider-fallback summarization orchestrator of
AI-Text-Audio-Summariser-chatbot.

The repository has two source files:
 * `app.py` — Streamlit UI plus the orchestrator `summarize_text` with the two
   provider adapters `summarize_with_hf` and `summarize_with_gemini`, the
   transcription adapter `transcribe_audio`, and file readers;
 * `text_summariser.py` — a CLI pipeline with its own `summarize_text`
   (Gemini-only, 20-word minimum), `transcribe_and_summarize` and
   `read_and_summarize_doc`.

Remote network behaviour is modelled by explicit oracles: a function from the
request data (and the attempt index, for retried calls) to the observed
outcome.  An exception raised by library code inside a `try` block is one of
the oracle outcomes, so "the adapter never raises" is represented by the
adapters being total functions of the oracle.  Where a claim needs to observe
calls that the plain return value does not reveal (network-call counts,
whether the second provider was invoked), an instrumented variant suffixed
`T` returns a trace record; the un-instrumented function is its projection.
-/

/-- Number of words of a character list in the sense of Python `str.split()`
with no arguments: the number of maximal runs of non-whitespace characters.
The flag records whether the previous character was part of a word. -/
def pyWordCount : List Char → Bool → Nat
  | [], _ => 0
  | c :: cs, inWord =>
    if c.isWhitespace then pyWordCount cs false
    else (if inWord then 0 else 1) + pyWordCount cs true

/-- Model of Python `len(text.split())`: the number of whitespace-separated
words of `s`. -/
def pyWords (s : String) : Nat := pyWordCount s.data false

/-- Model of the Python truthiness test `not text.strip()`: true iff every
character of `s` is whitespace (in particular for the empty string). -/
def pyStripIsEmpty (s : String) : Bool := s.data.all Char.isWhitespace

/-- Auxiliary for `pyContains`: does `needle` occur as a contiguous sublist
of the haystack? -/
def pyContainsAux (needle : List Char) : List Char → Bool
  | [] => needle.isEmpty
  | c :: t => needle.isPrefixOf (c :: t) || pyContainsAux needle t

/-- Model of the Python substring test `needle in hay`. -/
def pyContains (needle hay : String) : Bool := pyContainsAux needle.data hay.data

namespace App

/-- Outcome of one `requests.post` attempt against the Hugging Face inference
endpoint, as observed by `summarize_with_hf` (app.py lines 34-45): a 200
response whose JSON parses with a `summary_text` field, a non-200 status, or
an exception raised by the request or by parsing the response. -/
inductive HFOutcome where
  | ok (summary_text : String)
  | badStatus
  | exn
deriving DecidableEq

/-- The JSON body posted to the Hugging Face endpoint (app.py lines 35-39):
the input text and the `min_length`/`max_length` parameter object. -/
structure HFRequest where
  inputs : String
  min_length : Nat
  max_length : Nat
deriving DecidableEq

/-- The `(min_len, max_len)` pair chosen by `summarize_with_hf` from the
length keyword (app.py lines 26-31): "small" gives (20, 80), "medium" gives
(50, 150), anything else gives (100, 250). -/
def hfLengthParams (length : String) : Nat × Nat :=
  if length = "small" then (20, 80)
  else if length = "medium" then (50, 150)
  else (100, 250)

/-- Trace of one run of the Hugging Face adapter: the returned
`(summary, model_name)` pair, the number of `requests.post` calls issued, and
the durations of the `time.sleep` calls, in order. -/
structure HFTrace where
  summary : Option String
  used_model : Option String
  netCalls : Nat
  sleeps : List Nat
deriving DecidableEq

/-- The retry loop of `summarize_with_hf` (app.py lines 33-47): at most `k`
further attempts, the next one having index `attempt`.  A 200 response
returns the summary and the provider name "Hugging Face"; a bad status or an
exception sleeps `delay` and moves to the next attempt; an exhausted loop
returns `(None, None)`. -/
def hfRetryLoop (net : Nat → HFOutcome) (delay : Nat) : Nat → Nat → HFTrace
  | 0, _ => ⟨none, none, 0, []⟩
  | k + 1, attempt =>
    match net attempt with
    | .ok s => ⟨some s, some "Hugging Face", 1, []⟩
    | .badStatus =>
      let t := hfRetryLoop net delay k (attempt + 1)
      ⟨t.summary, t.used_model, t.netCalls + 1, delay :: t.sleeps⟩
    | .exn =>
      let t := hfRetryLoop net delay k (attempt + 1)
      ⟨t.summary, t.used_model, t.netCalls + 1, delay :: t.sleeps⟩

/-- Instrumented model of `summarize_with_hf(text, length, retries, delay)`
(app.py lines 20-47).  Texts of fewer than 5 words are rejected up front with
`(None, None)` and no network call; otherwise the length parameters are
computed and the retry loop posts the request up to `retries` times.  The
oracle `net` maps the posted request and the attempt index to the outcome. -/
def summarize_with_hfT (text length : String) (retries delay : Nat)
    (net : HFRequest → Nat → HFOutcome) : HFTrace :=
  if pyWords text < 5 then ⟨none, none, 0, []⟩
  else
    let p := hfLengthParams length
    hfRetryLoop (net ⟨text, p.1, p.2⟩) delay retries 0

/-- The `(summary, model_name)` pair returned by `summarize_with_hf`. -/
def summarize_with_hf (text length : String) (retries delay : Nat)
    (net : HFRequest → Nat → HFOutcome) : Option String × Option String :=
  let t := summarize_with_hfT text length retries delay net
  (t.summary, t.used_model)

/-- Outcome of the single `generate_content` call made by
`summarize_with_gemini` (app.py lines 49-59): the response text, or an
exception anywhere in the `try` block (configuration included). -/
inductive GemOutcome where
  | ok (text : String)
  | exn
deriving DecidableEq

/-- The prompt built by `summarize_with_gemini` (app.py line 55). -/
def gemPrompt (text length : String) : String :=
  "Summarize this text in a " ++ length ++ " length:\n\n" ++ text

/-- Model of `summarize_with_gemini(text, length)` (app.py lines 49-59).  The
adapter makes a single attempt — there is no retry loop — so it consults the
oracle only at attempt index 0.  Success returns `(response.text, "Gemini")`;
any exception is caught and converted to `(None, None)`. -/
def summarize_with_gemini (text length : String)
    (call : String → Nat → GemOutcome) : Option String × Option String :=
  match call (gemPrompt text length) 0 with
  | .ok t => (some t, some "Gemini")
  | .exn => (none, none)

/-- Trace of one run of the orchestrator `summarize_text`: the returned
`(summary, used_model)` pair, whether the run ended on a non-error path
(`succeeded`), the Hugging Face adapter trace when that adapter was invoked,
and whether the Gemini adapter was invoked. -/
structure SummTrace where
  summary : String
  used_model : Option String
  succeeded : Bool
  hf : Option HFTrace
  gemInvoked : Bool
deriving DecidableEq

/-- Instrumented model of the orchestrator `summarize_text(text,
model_choice, length)` (app.py lines 62-80).  `"Hugging Face"` tries only the
HF adapter (with the default `retries=3, delay=2`), `"Gemini"` only the
Gemini adapter, and any other choice is the Auto fallback: HF first, then
Gemini only if HF returned no summary, with the fixed error messages and
provider names of the source on the failure paths. -/
def summarize_textT (text model_choice length : String)
    (net : HFRequest → Nat → HFOutcome) (gem : String → Nat → GemOutcome) :
    SummTrace :=
  if model_choice = "Hugging Face" then
    let t := summarize_with_hfT text length 3 2 net
    match t.summary with
    | none =>
      ⟨"❌ Hugging Face summarization failed. Check API key or input length.",
        some "Hugging Face", false, some t, false⟩
    | some s => ⟨s, t.used_model, true, some t, false⟩
  else if model_choice = "Gemini" then
    match summarize_with_gemini text length gem with
    | (none, _) =>
      ⟨"❌ Gemini summarization failed. Check API key or input.",
        some "Gemini", false, none, true⟩
    | (some s, m) => ⟨s, m, true, none, true⟩
  else
    let t := summarize_with_hfT text length 3 2 net
    match t.summary with
    | some s => ⟨s, t.used_model, true, some t, false⟩
    | none =>
      match summarize_with_gemini text length gem with
      | (some s, m) => ⟨s, m, true, some t, true⟩
      | (none, _) =>
        ⟨"❌ Both Hugging Face and Gemini summarization failed.",
          none, false, some t, true⟩

/-- The `(summary, used_model)` pair returned by `summarize_text`. -/
def summarize_text (text model_choice length : String)
    (net : HFRequest → Nat → HFOutcome) (gem : String → Nat → GemOutcome) :
    String × Option String :=
  let t := summarize_textT text model_choice length net gem
  (t.summary, t.used_model)

/-- Model of `transcribe_audio(file_path)` (app.py lines 83-92): the Deepgram
call either yields a transcript or raises, and any exception is caught and
converted to the string `"Deepgram error: "` followed by the exception
text. -/
def transcribe_audio (call : Except String String) : String :=
  match call with
  | .ok transcript => transcript
  | .error e => "Deepgram error: " ++ e

/-- The guard of the Streamlit audio branch (app.py line 148): summarization
of a transcript runs only when the transcript is truthy (non-empty) and does
not start with `"Deepgram error"`. -/
def audio_branch_summarizes (transcript : String) : Bool :=
  transcript ≠ "" && !(transcript.startsWith "Deepgram error")

end App

/-- UTF-8 encoding of a single Unicode scalar value `n`, as a list of byte
values.  This models what Python's `str.encode("utf-8")` produces for one
character of the source string handed to a TXT file. -/
def utf8EncodeCp (n : Nat) : List Nat :=
  if n < 0x80 then [n]
  else if n < 0x800 then [0xC0 + n / 64, 0x80 + n % 64]
  else if n < 0x10000 then
    [0xE0 + n / 4096, 0x80 + n / 64 % 64, 0x80 + n % 64]
  else
    [0xF0 + n / 262144, 0x80 + n / 4096 % 64, 0x80 + n / 64 % 64, 0x80 + n % 64]

/-- One step of strict UTF-8 decoding: given the first byte `b` and the
remaining bytes, decode one Unicode scalar value and return it with the
still-undecoded bytes.  It rejects truncated sequences, stray continuation
bytes, overlong encodings, surrogate code points and values above `0x10FFFF`,
exactly the inputs on which Python's `bytes.decode("utf-8")` raises
`UnicodeDecodeError`. -/
def utf8DecodeOne (b : Nat) (rest : List Nat) : Option (Nat × List Nat) :=
  if b < 0x80 then some (b, rest)
  else if b < 0xC2 then none
  else if b < 0xE0 then
    match rest with
    | c1 :: rest1 =>
      if 0x80 ≤ c1 ∧ c1 < 0xC0 then some ((b - 0xC0) * 64 + (c1 - 0x80), rest1)
      else none
    | [] => none
  else if b < 0xF0 then
    match rest with
    | c1 :: c2 :: rest2 =>
      if (0x80 ≤ c1 ∧ c1 < 0xC0) ∧ (0x80 ≤ c2 ∧ c2 < 0xC0) then
        let v := (b - 0xE0) * 4096 + (c1 - 0x80) * 64 + (c2 - 0x80)
        if 0x800 ≤ v ∧ ¬(0xD800 ≤ v ∧ v < 0xE000) then some (v, rest2) else none
      else none
    | _ => none
  else if b < 0xF5 then
    match rest with
    | c1 :: c2 :: c3 :: rest3 =>
      if (0x80 ≤ c1 ∧ c1 < 0xC0) ∧ (0x80 ≤ c2 ∧ c2 < 0xC0) ∧
          (0x80 ≤ c3 ∧ c3 < 0xC0) then
        let v := (b - 0xF0) * 262144 + (c1 - 0x80) * 4096 +
          (c2 - 0x80) * 64 + (c3 - 0x80)
        if 0x10000 ≤ v ∧ v < 0x110000 then some (v, rest3) else none
      else none
    | _ => none
  else none

/-- Fuel-indexed strict UTF-8 decoding of a byte list into its list of
Unicode scalar values.  Each decoded scalar consumes at least one byte, so a
fuel of the byte count always suffices. -/
def utf8DecodeAux : Nat → List Nat → Option (List Nat)
  | _, [] => some []
  | 0, _ :: _ => none
  | fuel + 1, b :: rest =>
    match utf8DecodeOne b rest with
    | none => none
    | some (v, rest') => (utf8DecodeAux fuel rest').map (fun l => v :: l)

/-- Strict UTF-8 decoding of a byte list into the list of Unicode scalar
values, in the sense of Python's `bytes.decode("utf-8")`: `none` exactly
where Python raises `UnicodeDecodeError`. -/
def utf8DecodeList (bytes : List Nat) : Option (List Nat) :=
  utf8DecodeAux bytes.length bytes

/-- UTF-8 encoding of a character list. -/
def utf8EncodeChars : List Char → List Nat
  | [] => []
  | c :: cs => utf8EncodeCp c.toNat ++ utf8EncodeChars cs

/-- UTF-8 encoding of a string, modelling Python `s.encode("utf-8")`. -/
def utf8Encode (s : String) : List Nat := utf8EncodeChars s.data

/-- Decoding a byte list to a string, modelling Python
`bytes.decode("utf-8")`: `none` where Python raises `UnicodeDecodeError`. -/
def utf8DecodeString (bytes : List Nat) : Option String :=
  (utf8DecodeList bytes).map (fun cps => ⟨cps.map Char.ofNat⟩)

/-- Universal-newline translation performed on read by Python's text-mode
`open(path, "r", encoding="utf-8")` with the default `newline=None`: a
`\r\n` pair and a lone `\r` are both converted to `\n`. -/
def pyTranslateNewlines : List Char → List Char
  | [] => []
  | c :: rest =>
    if c = '\r' then
      match rest with
      | c2 :: rest2 =>
        if c2 = '\n' then '\n' :: pyTranslateNewlines rest2
        else '\n' :: pyTranslateNewlines (c2 :: rest2)
      | [] => ['\n']
    else c :: pyTranslateNewlines rest

/-- Universal-newline translation on strings. -/
def pyUniversalNewlines (s : String) : String := ⟨pyTranslateNewlines s.data⟩

namespace TS

/-- Model of `read_pdf(file_path)` of text_summariser.py (lines 37-45): the
extraction either yields the concatenated page text or raises, and any
exception is caught and converted to the string
`"❌ Error reading PDF: "` followed by the exception text. -/
def read_pdf (file : Except String String) : String :=
  match file with
  | .ok text => text
  | .error e => "❌ Error reading PDF: " ++ e

/-- Model of `read_docx(file_path)` of text_summariser.py (lines 47-52):
paragraph text joined by newlines on success, and any exception converted to
`"❌ Error reading DOCX: "` followed by the exception text. -/
def read_docx (file : Except String String) : String :=
  match file with
  | .ok text => text
  | .error e => "❌ Error reading DOCX: " ++ e

/-- Model of `read_txt(file_path)` of text_summariser.py (lines 54-59): the
file is opened in text mode (`open(file_path, "r", encoding="utf-8")` with
the default `newline=None`), so the raw bytes are decoded as UTF-8 and then
universal-newline translation converts `\r\n` and `\r` to `\n`; any
exception (opening the file, or a `UnicodeDecodeError` while reading) is
converted to `"❌ Error reading TXT: "` followed by the exception text. -/
def read_txt (file : Except String (List Nat)) : String :=
  match file with
  | .error e => "❌ Error reading TXT: " ++ e
  | .ok bytes =>
    match utf8DecodeString bytes with
    | some s => pyUniversalNewlines s
    | none => "❌ Error reading TXT: invalid UTF-8 byte sequence"

/-- The prompt sent to Gemini by `summarize_text` of text_summariser.py
(lines 71-72). -/
def tsPrompt (text length : String) : String :=
  "Summarize this text in a " ++ length ++
    " detail. The summary should be concise and capture the key information." ++
    "\n\nText:\n" ++ text

/-- Model of `summarize_text(text, length)` of text_summariser.py (lines
62-75): unconfigured client and sub-20-word input are rejected with fixed
messages before any network call; otherwise the single Gemini call either
yields `"[Gemini] "` plus the response text, or its exception text tagged
`"[Gemini ERROR] "`. -/
def summarize_text (gemConfigured : Bool) (text length : String)
    (gem : String → Except String String) : String :=
  if !gemConfigured then "❌ Gemini API not configured. Cannot summarize."
  else if pyStripIsEmpty text || pyWords text < 20 then
    "⚠️ Text is too short to summarize effectively."
  else
    match gem (tsPrompt text length) with
    | .ok t => "[Gemini] " ++ t
    | .error e => "[Gemini ERROR] " ++ e

/-- Result of a CLI pipeline step together with whether the pipeline reached
the call to `summarize_text`. -/
structure PipeTrace where
  output : String
  summarized : Bool
deriving DecidableEq

/-- Instrumented model of `transcribe_and_summarize(file_path, length)` of
text_summariser.py (lines 78-96): unconfigured client and missing file are
rejected with fixed messages; a Deepgram exception is converted to
`"Deepgram error: "` plus the exception text; a whitespace-only transcript is
the distinct outcome `"⚠️ No speech detected in audio."` and summarization is
skipped; otherwise the transcript is summarized. -/
def transcribe_and_summarizeT (dgConfigured fileExists : Bool)
    (dg : Except String String) (length : String) (gemConfigured : Bool)
    (gem : String → Except String String) : PipeTrace :=
  if !dgConfigured then
    ⟨"❌ Deepgram API not configured. Cannot transcribe audio.", false⟩
  else if !fileExists then
    ⟨"❌ Audio file not found at the specified path.", false⟩
  else
    match dg with
    | .error e => ⟨"Deepgram error: " ++ e, false⟩
    | .ok transcript =>
      if pyStripIsEmpty transcript then ⟨"⚠️ No speech detected in audio.", false⟩
      else ⟨summarize_text gemConfigured transcript length gem, true⟩

/-- The string returned by `transcribe_and_summarize`. -/
def transcribe_and_summarize (dgConfigured fileExists : Bool)
    (dg : Except String String) (length : String) (gemConfigured : Bool)
    (gem : String → Except String String) : String :=
  (transcribe_and_summarizeT dgConfigured fileExists dg length gemConfigured gem).output

/-- Instrumented model of `read_and_summarize_doc(file_path, length)` of
text_summariser.py (lines 99-121): missing file and unsupported extension are
rejected with fixed messages; the reader matching the (lower-cased) extension
runs; extracted text containing the substring `"❌ Error"` is returned
verbatim; whitespace-only text yields the fixed extraction message; otherwise
the text is summarized. -/
def read_and_summarize_docT (fileExists : Bool) (file_ext : String)
    (pdfFile docxFile : Except String String) (txtFile : Except String (List Nat))
    (length : String) (gemConfigured : Bool)
    (gem : String → Except String String) : PipeTrace :=
  if !fileExists then ⟨"❌ Document file not found at the specified path.", false⟩
  else
    let text? : Option String :=
      if file_ext = ".pdf" then some (read_pdf pdfFile)
      else if file_ext = ".docx" then some (read_docx docxFile)
      else if file_ext = ".txt" then some (read_txt txtFile)
      else none
    match text? with
    | none => ⟨"❌ Unsupported document type. Please use PDF, DOCX, or TXT.", false⟩
    | some text =>
      if pyContains "❌ Error" text then ⟨text, false⟩
      else if pyStripIsEmpty text then
        ⟨"⚠️ Could not extract text from the document.", false⟩
      else ⟨summarize_text gemConfigured text length gem, true⟩

/-- The string returned by `read_and_summarize_doc`. -/
def read_and_summarize_doc (fileExists : Bool) (file_ext : String)
    (pdfFile docxFile : Except String String) (txtFile : Except String (List Nat))
    (length : String) (gemConfigured : Bool)
    (gem : String → Except String String) : String :=
  (read_and_summarize_docT fileExists file_ext pdfFile docxFile txtFile
    length gemConfigured gem).output

end TS

namespace App

/-- Model of `read_txt(file)` of app.py (lines 106-107): the uploaded file's
bytes are decoded as UTF-8, with no exception handler — an invalid byte
sequence propagates as a raised `UnicodeDecodeError`, modelled by `none`. -/
def read_txt (content : List Nat) : Option String := utf8DecodeString content

end App

theorem utf8EncodeCp_ne_nil (n : Nat) : utf8EncodeCp n ≠ [] := by
  unfold utf8EncodeCp
  split <;> simp_all
  split <;> simp_all
  split <;> simp_all

theorem utf8DecodeOne_encodeCp (n : Nat)
    (hv : n < 0xd800 ∨ (0xdfff < n ∧ n < 0x110000)) (tl : List Nat) :
    ∃ b rest, utf8EncodeCp n ++ tl = b :: rest ∧
      utf8DecodeOne b rest = some (n, tl) := by
  by_cases h1 : n < 0x80
  · refine ⟨n, tl, by simp [utf8EncodeCp, if_pos h1], ?_⟩
    unfold utf8DecodeOne
    rw [if_pos h1]
  · by_cases h2 : n < 0x800
    · refine ⟨0xC0 + n / 64, (0x80 + n % 64) :: tl,
        by simp [utf8EncodeCp, if_neg h1, if_pos h2], ?_⟩
      unfold utf8DecodeOne
      rw [if_neg (by omega), if_neg (by omega), if_pos (by omega)]
      dsimp only
      rw [if_pos (by omega)]
      have hn : (0xC0 + n / 64 - 0xC0) * 64 + (0x80 + n % 64 - 0x80) = n := by omega
      rw [hn]
    · by_cases h3 : n < 0x10000
      · refine ⟨0xE0 + n / 4096, (0x80 + n / 64 % 64) :: (0x80 + n % 64) :: tl,
          by simp [utf8EncodeCp, if_neg h1, if_neg h2, if_pos h3], ?_⟩
        unfold utf8DecodeOne
        rw [if_neg (by omega), if_neg (by omega), if_neg (by omega), if_pos (by omega)]
        dsimp only
        rw [if_pos (by omega)]
        have hn : (0xE0 + n / 4096 - 0xE0) * 4096 + (0x80 + n / 64 % 64 - 0x80) * 64 +
            (0x80 + n % 64 - 0x80) = n := by omega
        rw [hn]
        rw [if_pos (by omega)]
      · have h4 : n < 0x110000 := by omega
        refine ⟨0xF0 + n / 262144,
          (0x80 + n / 4096 % 64) :: (0x80 + n / 64 % 64) :: (0x80 + n % 64) :: tl,
          by simp [utf8EncodeCp, if_neg h1, if_neg h2, if_neg h3], ?_⟩
        unfold utf8DecodeOne
        rw [if_neg (by omega), if_neg (by omega), if_neg (by omega), if_neg (by omega),
          if_pos (by omega)]
        dsimp only
        rw [if_pos (by omega)]
        have hn : (0xF0 + n / 262144 - 0xF0) * 262144 +
            (0x80 + n / 4096 % 64 - 0x80) * 4096 +
            (0x80 + n / 64 % 64 - 0x80) * 64 + (0x80 + n % 64 - 0x80) = n := by omega
        rw [hn]
        rw [if_pos (by omega)]

theorem char_toNat_valid (c : Char) :
    c.toNat < 0xd800 ∨ (0xdfff < c.toNat ∧ c.toNat < 0x110000) := by
  have h := c.valid
  unfold isValidChar at h
  rcases h with h | ⟨h1, h2⟩
  · exact Or.inl h
  · exact Or.inr ⟨h1, h2⟩

theorem utf8DecodeAux_encodeChars (cs : List Char) (fuel : Nat)
    (hfuel : (utf8EncodeChars cs).length ≤ fuel) :
    utf8DecodeAux fuel (utf8EncodeChars cs) = some (cs.map Char.toNat) := by
  induction cs generalizing fuel with
  | nil => cases fuel <;> rfl
  | cons c cs ih =>
    obtain ⟨b, rest, heq, hone⟩ :=
      utf8DecodeOne_encodeCp c.toNat (char_toNat_valid c) (utf8EncodeChars cs)
    rw [utf8EncodeChars] at hfuel ⊢
    rw [heq] at hfuel ⊢
    have hlen := congrArg List.length heq
    have hpos : 0 < (utf8EncodeCp c.toNat).length :=
      List.length_pos.mpr (utf8EncodeCp_ne_nil _)
    simp only [List.length_append, List.length_cons] at hlen
    cases fuel with
    | zero => simp at hfuel
    | succ f =>
      rw [utf8DecodeAux, hone]
      dsimp only
      rw [ih f (by simp at hfuel; omega)]
      rfl

theorem utf8DecodeString_encode (s : String) :
    utf8DecodeString (utf8Encode s) = some s := by
  unfold utf8DecodeString utf8Encode utf8DecodeList
  rw [utf8DecodeAux_encodeChars s.data _ (Nat.le_refl _)]
  have hmap : ∀ l : List Char, (l.map Char.toNat).map Char.ofNat = l := by
    intro l
    induction l with
    | nil => rfl
    | cons c t iht => simp [iht]
  simp [hmap]

theorem pyTranslateNewlines_eq_self (l : List Char) (h : '\r' ∉ l) :
    pyTranslateNewlines l = l := by
  induction l with
  | nil => rfl
  | cons c rest ih =>
    have hc : c ≠ '\r' := fun hceq => h (hceq ▸ List.mem_cons_self c rest)
    have hrest : '\r' ∉ rest := fun hm => h (List.mem_cons_of_mem c hm)
    rw [pyTranslateNewlines.eq_def]
    dsimp only
    rw [if_neg hc, ih hrest]

theorem TS_read_txt_utf8 (s : String) :
    TS.read_txt (Except.ok (utf8Encode s)) = pyUniversalNewlines s := by
  unfold TS.read_txt
  dsimp only
  rw [utf8DecodeString_encode]

theorem TS_read_txt_utf8_no_cr (s : String) (h : '\r' ∉ s.data) :
    TS.read_txt (Except.ok (utf8Encode s)) = s := by
  rw [TS_read_txt_utf8]
  unfold pyUniversalNewlines
  rw [pyTranslateNewlines_eq_self s.data h]

theorem hfRetryLoop_shape (net : Nat → App.HFOutcome) (delay k a : Nat) :
    (App.hfRetryLoop net delay k a).summary = none ∧
      (App.hfRetryLoop net delay k a).used_model = none ∨
    ∃ s, (App.hfRetryLoop net delay k a).summary = some s ∧
      (App.hfRetryLoop net delay k a).used_model = some "Hugging Face" := by
  induction k generalizing a with
  | zero => exact Or.inl ⟨rfl, rfl⟩
  | succ k ih =>
    cases hn : net a with
    | ok s =>
      refine Or.inr ⟨s, ?_, ?_⟩ <;> rw [App.hfRetryLoop, hn]
    | badStatus =>
      rcases ih (a + 1) with ⟨h1, h2⟩ | ⟨s, h1, h2⟩
      · refine Or.inl ⟨?_, ?_⟩ <;> rw [App.hfRetryLoop, hn] <;> assumption
      · refine Or.inr ⟨s, ?_, ?_⟩ <;> rw [App.hfRetryLoop, hn] <;> assumption
    | exn =>
      rcases ih (a + 1) with ⟨h1, h2⟩ | ⟨s, h1, h2⟩
      · refine Or.inl ⟨?_, ?_⟩ <;> rw [App.hfRetryLoop, hn] <;> assumption
      · refine Or.inr ⟨s, ?_, ?_⟩ <;> rw [App.hfRetryLoop, hn] <;> assumption

theorem summarize_with_hfT_shape (text length : String) (retries delay : Nat)
    (net : App.HFRequest → Nat → App.HFOutcome) :
    (App.summarize_with_hfT text length retries delay net).summary = none ∧
      (App.summarize_with_hfT text length retries delay net).used_model = none ∨
    ∃ s, (App.summarize_with_hfT text length retries delay net).summary = some s ∧
      (App.summarize_with_hfT text length retries delay net).used_model =
        some "Hugging Face" := by
  unfold App.summarize_with_hfT
  by_cases h : pyWords text < 5
  · rw [if_pos h]
    exact Or.inl ⟨rfl, rfl⟩
  · rw [if_neg h]
    exact hfRetryLoop_shape _ _ _ _

/-- C3: with an Auto preference (any model choice other than the two provider
names), the orchestrator always invokes the Hugging Face adapter first (with
the default retry policy), and invokes the Gemini adapter exactly when the
Hugging Face adapter returned no summary; in particular, whenever the Hugging
Face adapter succeeds, the Gemini adapter is never invoked. -/
theorem C3_auto_order_short_circuit (text mc length : String)
    (net : App.HFRequest → Nat → App.HFOutcome) (gem : String → Nat → App.GemOutcome)
    (hA : mc ≠ "Hugging Face") (hB : mc ≠ "Gemini") :
    (App.summarize_textT text mc length net gem).hf =
      some (App.summarize_with_hfT text length 3 2 net) ∧
    ((App.summarize_textT text mc length net gem).gemInvoked = true ↔
      (App.summarize_with_hfT text length 3 2 net).summary = none) := by
  unfold App.summarize_textT
  rw [if_neg hA, if_neg hB]
  dsimp only
  cases hs : (App.summarize_with_hfT text length 3 2 net).summary with
  | none =>
    cases hg : gem (App.gemPrompt text length) 0 with
    | ok s => simp [App.summarize_with_gemini, hg, hs]
    | exn => simp [App.summarize_with_gemini, hg, hs]
  | some s => simp [hs]

/-- Witness for C3 at concrete inputs: an always-succeeding Hugging Face stub
under Auto preference, on a five-word text. -/
theorem C3_witness :
    (App.summarize_textT "one two three four five" "Auto" "medium"
        (fun _ _ => App.HFOutcome.ok "S") (fun _ _ => App.GemOutcome.exn)).hf =
      some (App.summarize_with_hfT "one two three four five" "medium" 3 2
        (fun _ _ => App.HFOutcome.ok "S")) ∧
    ((App.summarize_textT "one two three four five" "Auto" "medium"
        (fun _ _ => App.HFOutcome.ok "S") (fun _ _ => App.GemOutcome.exn)).gemInvoked = true ↔
      (App.summarize_with_hfT "one two three four five" "medium" 3 2
        (fun _ _ => App.HFOutcome.ok "S")).summary = none) :=
  C3_auto_order_short_circuit "one two three four five" "Auto" "medium"
    (fun _ _ => App.HFOutcome.ok "S") (fun _ _ => App.GemOutcome.exn)
    (by decide) (by decide)

/-- C4: with an Auto preference, when the Hugging Face adapter returns no
summary the orchestrator's result is determined by the Gemini call: on Gemini
success the result carries the Gemini summary with `used_model` identifying
Gemini, and when both providers fail the result is the fixed failure message
with `used_model` unset (`None`). -/
theorem C4_auto_fallback_provider (text mc length : String)
    (net : App.HFRequest → Nat → App.HFOutcome) (gem : String → Nat → App.GemOutcome)
    (hA : mc ≠ "Hugging Face") (hB : mc ≠ "Gemini")
    (hAfails : (App.summarize_with_hfT text length 3 2 net).summary = none) :
    App.summarize_text text mc length net gem =
      (match gem (App.gemPrompt text length) 0 with
       | App.GemOutcome.ok s => (s, some "Gemini")
       | App.GemOutcome.exn =>
         ("❌ Both Hugging Face and Gemini summarization failed.", none)) ∧
    (App.summarize_textT text mc length net gem).succeeded =
      (match gem (App.gemPrompt text length) 0 with
       | App.GemOutcome.ok _ => true
       | App.GemOutcome.exn => false) := by
  unfold App.summarize_text App.summarize_textT
  rw [if_neg hA, if_neg hB]
  dsimp only
  rw [hAfails]
  cases hg : gem (App.gemPrompt text length) 0 with
  | ok s => simp [App.summarize_with_gemini, hg]
  | exn => simp [App.summarize_with_gemini, hg]

/-- Witness for C4 at concrete inputs: an always-failing Hugging Face stub
and a succeeding Gemini stub under Auto preference. -/
theorem C4_witness :
    App.summarize_text "one two three four five" "Auto" "medium"
        (fun _ _ => App.HFOutcome.exn) (fun _ _ => App.GemOutcome.ok "B") =
      (match (fun (_ : String) (_ : Nat) => App.GemOutcome.ok "B")
          (App.gemPrompt "one two three four five" "medium") 0 with
       | App.GemOutcome.ok s => (s, some "Gemini")
       | App.GemOutcome.exn =>
         ("❌ Both Hugging Face and Gemini summarization failed.", none)) ∧
    (App.summarize_textT "one two three four five" "Auto" "medium"
        (fun _ _ => App.HFOutcome.exn) (fun _ _ => App.GemOutcome.ok "B")).succeeded =
      (match (fun (_ : String) (_ : Nat) => App.GemOutcome.ok "B")
          (App.gemPrompt "one two three four five" "medium") 0 with
       | App.GemOutcome.ok _ => true
       | App.GemOutcome.exn => false) :=
  C4_auto_fallback_provider "one two three four five" "Auto" "medium"
    (fun _ _ => App.HFOutcome.exn) (fun _ _ => App.GemOutcome.ok "B")
    (by decide) (by decide) (by decide)

/-- C6: no adapter lets a failure escape as a raised exception.  For every
oracle behaviour, each summarization adapter returns either the failure tuple
`(None, None)` or a successful `(summary, provider)` pair, and the
transcription adapter converts any exception into a string prefixed with
`"Deepgram error: "` identifying the subsystem. -/
theorem C6_adapters_never_raise (text length : String) (retries delay : Nat)
    (net : App.HFRequest → Nat → App.HFOutcome)
    (gem : String → Nat → App.GemOutcome) (e : String) :
    (App.summarize_with_hf text length retries delay net = (none, none) ∨
      ∃ s, App.summarize_with_hf text length retries delay net =
        (some s, some "Hugging Face")) ∧
    (App.summarize_with_gemini text length gem = (none, none) ∨
      ∃ s, App.summarize_with_gemini text length gem = (some s, some "Gemini")) ∧
    App.transcribe_audio (Except.error e) = "Deepgram error: " ++ e := by
  refine ⟨?_, ?_, rfl⟩
  · unfold App.summarize_with_hf
    dsimp only
    rcases summarize_with_hfT_shape text length retries delay net with
      ⟨h1, h2⟩ | ⟨s, h1, h2⟩
    · exact Or.inl (by rw [h1, h2])
    · exact Or.inr ⟨s, by rw [h1, h2]⟩
  · unfold App.summarize_with_gemini
    cases hg : gem (App.gemPrompt text length) 0 with
    | ok s => exact Or.inr ⟨s, rfl⟩
    | exn => exact Or.inl rfl

/-- C7: an audio input whose transcription yields an empty (here: entirely
whitespace, as `not transcript.strip()` tests) transcript produces the
distinct non-error outcome "⚠️ No speech detected in audio." and the CLI
pipeline skips summarization (the summarizer is never reached); the Streamlit
caller likewise does not summarize an empty transcript, since its guard at
app.py line 148 is false for the empty string. -/
theorem C7_empty_transcript_skips_summarization (length : String)
    (gemConfigured : Bool) (gem : String → Except String String)
    (transcript : String) (hws : pyStripIsEmpty transcript = true) :
    TS.transcribe_and_summarizeT true true (Except.ok transcript) length
        gemConfigured gem =
      ⟨"⚠️ No speech detected in audio.", false⟩ ∧
    App.audio_branch_summarizes "" = false := by
  refine ⟨?_, rfl⟩
  unfold TS.transcribe_and_summarizeT
  simp [hws]

/-- Witness for C7 at concrete inputs: the empty transcript itself. -/
theorem C7_witness :
    TS.transcribe_and_summarizeT true true (Except.ok "") "medium" true
        (fun _ => Except.ok "x") =
      ⟨"⚠️ No speech detected in audio.", false⟩ ∧
    App.audio_branch_summarizes "" = false :=
  C7_empty_transcript_skips_summarization "medium" true (fun _ => Except.ok "x")
    "" (by decide)

/-- C9: the orchestrator is stateless and deterministic given deterministic
adapters: two invocations of `summarize_text` with identical text, model
choice and length, against adapters with identical behaviour, return
identical results (and identical full traces).  The model has no state
outside the arguments and the result. -/
theorem C9_deterministic (text mc length : String)
    (net net' : App.HFRequest → Nat → App.HFOutcome)
    (gem gem' : String → Nat → App.GemOutcome)
    (hnet : ∀ r n, net r n = net' r n) (hgem : ∀ p n, gem p n = gem' p n) :
    App.summarize_text text mc length net gem =
      App.summarize_text text mc length net' gem' ∧
    App.summarize_textT text mc length net gem =
      App.summarize_textT text mc length net' gem' := by
  have h1 : net = net' := funext fun r => funext fun n => hnet r n
  have h2 : gem = gem' := funext fun p => funext fun n => hgem p n
  rw [h1, h2]
  exact ⟨rfl, rfl⟩

/-- Witness for C9 at concrete inputs: two syntactically distinct stubs with
equal behaviour. -/
theorem C9_witness :
    App.summarize_text "one two three four five" "Auto" "medium"
        (fun _ _ => App.HFOutcome.ok "S") (fun _ _ => App.GemOutcome.exn) =
      App.summarize_text "one two three four five" "Auto" "medium"
        (fun _ n => if n < 9 then App.HFOutcome.ok "S" else App.HFOutcome.ok "S")
        (fun _ _ => App.GemOutcome.exn) ∧
    App.summarize_textT "one two three four five" "Auto" "medium"
        (fun _ _ => App.HFOutcome.ok "S") (fun _ _ => App.GemOutcome.exn) =
      App.summarize_textT "one two three four five" "Auto" "medium"
        (fun _ n => if n < 9 then App.HFOutcome.ok "S" else App.HFOutcome.ok "S")
        (fun _ _ => App.GemOutcome.exn) :=
  C9_deterministic "one two three four five" "Auto" "medium"
    (fun _ _ => App.HFOutcome.ok "S")
    (fun _ n => if n < 9 then App.HFOutcome.ok "S" else App.HFOutcome.ok "S")
    (fun _ _ => App.GemOutcome.exn) (fun _ _ => App.GemOutcome.exn)
    (fun _ n => by by_cases h : n < 9 <;> simp [h]) (fun _ _ => rfl)

/-- C10: the CLI document pipeline detects read errors by substring matching:
whenever the successfully extracted text of a supported document contains the
substring "❌ Error" anywhere — legitimate content included —
`read_and_summarize_doc` returns that text verbatim as if it were a read
failure, and summarization is never invoked.  For the TXT reader the
extracted text is the decoded file content after universal-newline
translation, so extracted text never contains a carriage return; the TXT
disjunct therefore ranges over carriage-return-free `text` without loss. -/
theorem C10_error_substring_sniffing (file_ext length : String)
    (pdfFile docxFile : Except String String) (txtFile : Except String (List Nat))
    (gemConfigured : Bool) (gem : String → Except String String) (text : String)
    (hread : file_ext = ".pdf" ∧ pdfFile = Except.ok text ∨
      file_ext = ".docx" ∧ docxFile = Except.ok text ∨
      file_ext = ".txt" ∧ txtFile = Except.ok (utf8Encode text) ∧ '\r' ∉ text.data)
    (hcontains : pyContains "❌ Error" text = true) :
    TS.read_and_summarize_docT true file_ext pdfFile docxFile txtFile length
      gemConfigured gem = ⟨text, false⟩ := by
  unfold TS.read_and_summarize_docT
  rcases hread with ⟨hext, hfile⟩ | ⟨hext, hfile⟩ | ⟨hext, hfile, hnocr⟩ <;>
    subst hext <;> subst hfile
  · simp [TS.read_pdf, hcontains]
  · simp [TS.read_docx, hcontains]
  · simp [TS_read_txt_utf8_no_cr text hnocr, hcontains]

/-- Witness for C10 at concrete inputs: a PDF whose legitimate page text
mentions "❌ Error". -/
theorem C10_witness :
    TS.read_and_summarize_docT true ".pdf"
        (Except.ok "the ❌ Error marker is ordinary prose here")
        (Except.error "unused") (Except.error "unused") "medium" true
        (fun _ => Except.ok "x") =
      ⟨"the ❌ Error marker is ordinary prose here", false⟩ :=
  C10_error_substring_sniffing ".pdf" "medium"
    (Except.ok "the ❌ Error marker is ordinary prose here")
    (Except.error "unused") (Except.error "unused") true (fun _ => Except.ok "x")
    "the ❌ Error marker is ordinary prose here"
    (Or.inl ⟨rfl, rfl⟩) (by decide)

/-- C5 (amended): every result of the orchestrator satisfies — success
implies `used_model` identifies one of the two providers and the result text
is verbatim the summary string that provider returned (so it is empty
exactly when the provider returned an empty summary), and failure implies
the summary is one of three fixed user-facing error messages with
`used_model` either the last attempted provider (single-provider choices) or
unset (Auto with both providers failed). -/
theorem C5_result_invariant (text mc length : String)
    (net : App.HFRequest → Nat → App.HFOutcome) (gem : String → Nat → App.GemOutcome) :
    ((App.summarize_textT text mc length net gem).succeeded = true ∧
      (App.summarize_textT text mc length net gem).used_model.isSome = true ∧
      ((App.summarize_textT text mc length net gem).used_model = some "Hugging Face" ∧
        (App.summarize_with_hfT text length 3 2 net).summary =
          some (App.summarize_textT text mc length net gem).summary ∨
       (App.summarize_textT text mc length net gem).used_model = some "Gemini" ∧
        gem (App.gemPrompt text length) 0 =
          App.GemOutcome.ok (App.summarize_textT text mc length net gem).summary)) ∨
    ((App.summarize_textT text mc length net gem).succeeded = false ∧
      ((App.summarize_textT text mc length net gem).summary =
          "❌ Hugging Face summarization failed. Check API key or input length." ∧
        (App.summarize_textT text mc length net gem).used_model = some "Hugging Face" ∨
       (App.summarize_textT text mc length net gem).summary =
          "❌ Gemini summarization failed. Check API key or input." ∧
        (App.summarize_textT text mc length net gem).used_model = some "Gemini" ∨
       (App.summarize_textT text mc length net gem).summary =
          "❌ Both Hugging Face and Gemini summarization failed." ∧
        (App.summarize_textT text mc length net gem).used_model = none)) := by
  unfold App.summarize_textT
  by_cases hA : mc = "Hugging Face"
  · rw [if_pos hA]
    dsimp only
    rcases summarize_with_hfT_shape text length 3 2 net with ⟨h1, h2⟩ | ⟨s, h1, h2⟩
    · rw [h1]
      exact Or.inr ⟨rfl, Or.inl ⟨rfl, rfl⟩⟩
    · rw [h1]
      exact Or.inl ⟨rfl, by rw [h2]; rfl, Or.inl ⟨h2, rfl⟩⟩
  · rw [if_neg hA]
    by_cases hB : mc = "Gemini"
    · rw [if_pos hB]
      cases hg : gem (App.gemPrompt text length) 0 with
      | ok s => simp [App.summarize_with_gemini, hg]
      | exn => simp [App.summarize_with_gemini, hg]
    · rw [if_neg hB]
      dsimp only
      rcases summarize_with_hfT_shape text length 3 2 net with ⟨h1, h2⟩ | ⟨s, h1, h2⟩
      · rw [h1]
        cases hg : gem (App.gemPrompt text length) 0 with
        | ok s => simp [App.summarize_with_gemini, hg]
        | exn => simp [App.summarize_with_gemini, hg]
      · rw [h1]
        exact Or.inl ⟨rfl, by rw [h2]; rfl, Or.inl ⟨h2, rfl⟩⟩

/-- Counterexample to C5 as stated: when the Hugging Face endpoint answers
200 with an empty `summary_text`, the orchestrator returns a successful
result whose text is empty — refuting "success implies text is non-empty". -/
theorem C5_counterexample :
    (App.summarize_textT "one two three four five" "Auto" "medium"
        (fun _ _ => App.HFOutcome.ok "") (fun _ _ => App.GemOutcome.exn)).succeeded =
      true ∧
    (App.summarize_textT "one two three four five" "Auto" "medium"
        (fun _ _ => App.HFOutcome.ok "") (fun _ _ => App.GemOutcome.exn)).summary =
      "" ∧
    (App.summarize_textT "one two three four five" "Auto" "medium"
        (fun _ _ => App.HFOutcome.ok "") (fun _ _ => App.GemOutcome.exn)).used_model =
      some "Hugging Face" := by
  refine ⟨?_, ?_, ?_⟩ <;> decide

/-- Counterexample to C1 as stated: on the one-word input "a" with Auto
preference, the orchestrator does not stop after the Hugging Face adapter's
too-short rejection — it falls back to Gemini, which issues its network call,
and when that call succeeds the overall result is a success attributed to
Gemini, not a failure with `providerUsed` unset. -/
theorem C1_counterexample :
    (App.summarize_textT "a" "Auto" "medium" (fun _ _ => App.HFOutcome.exn)
        (fun _ _ => App.GemOutcome.ok "a short summary")).succeeded = true ∧
    (App.summarize_textT "a" "Auto" "medium" (fun _ _ => App.HFOutcome.exn)
        (fun _ _ => App.GemOutcome.ok "a short summary")).gemInvoked = true ∧
    (App.summarize_textT "a" "Auto" "medium" (fun _ _ => App.HFOutcome.exn)
        (fun _ _ => App.GemOutcome.ok "a short summary")).used_model =
      some "Gemini" := by
  refine ⟨?_, ?_, ?_⟩ <;> decide

/-- C1 (amended): for every input below the Hugging Face minimum of 5 words,
the Hugging Face adapter itself returns the failure tuple without issuing any
Hugging Face network call (and without sleeping); under Auto preference the
orchestrator nevertheless invokes the Gemini adapter on such input, and only
when Gemini also fails does it return a failure result — with `used_model`
unset and the generic both-providers-failed message, which does not mention
input length. -/
theorem C1_short_input (text length : String) (retries delay : Nat)
    (net : App.HFRequest → Nat → App.HFOutcome) (gem : String → Nat → App.GemOutcome)
    (hshort : pyWords text < 5) (hgemfail : ∀ p n, gem p n = App.GemOutcome.exn) :
    App.summarize_with_hfT text length retries delay net = ⟨none, none, 0, []⟩ ∧
    (App.summarize_textT text "Auto" length net gem).succeeded = false ∧
    (App.summarize_textT text "Auto" length net gem).used_model = none ∧
    (App.summarize_textT text "Auto" length net gem).summary =
      "❌ Both Hugging Face and Gemini summarization failed." ∧
    Option.map App.HFTrace.netCalls (App.summarize_textT text "Auto" length net gem).hf =
      some 0 ∧
    (App.summarize_textT text "Auto" length net gem).gemInvoked = true := by
  have hhf : ∀ r d : Nat, App.summarize_with_hfT text length r d net = ⟨none, none, 0, []⟩ := by
    intro r d
    unfold App.summarize_with_hfT
    rw [if_pos hshort]
  have horch : App.summarize_textT text "Auto" length net gem =
      ⟨"❌ Both Hugging Face and Gemini summarization failed.", none, false,
        some ⟨none, none, 0, []⟩, true⟩ := by
    unfold App.summarize_textT
    rw [if_neg (by decide), if_neg (by decide)]
    dsimp only
    rw [hhf 3 2]
    simp [App.summarize_with_gemini, hgemfail]
  refine ⟨hhf retries delay, ?_, ?_, ?_, ?_, ?_⟩ <;> simp [horch]

/-- Witness for C1 at concrete inputs: the one-word input "a" with a failing
Gemini stub. -/
theorem C1_witness :
    App.summarize_with_hfT "a" "medium" 3 2 (fun _ _ => App.HFOutcome.exn) =
      ⟨none, none, 0, []⟩ ∧
    (App.summarize_textT "a" "Auto" "medium" (fun _ _ => App.HFOutcome.exn)
        (fun _ _ => App.GemOutcome.exn)).succeeded = false ∧
    (App.summarize_textT "a" "Auto" "medium" (fun _ _ => App.HFOutcome.exn)
        (fun _ _ => App.GemOutcome.exn)).used_model = none ∧
    (App.summarize_textT "a" "Auto" "medium" (fun _ _ => App.HFOutcome.exn)
        (fun _ _ => App.GemOutcome.exn)).summary =
      "❌ Both Hugging Face and Gemini summarization failed." ∧
    Option.map App.HFTrace.netCalls
        (App.summarize_textT "a" "Auto" "medium" (fun _ _ => App.HFOutcome.exn)
          (fun _ _ => App.GemOutcome.exn)).hf = some 0 ∧
    (App.summarize_textT "a" "Auto" "medium" (fun _ _ => App.HFOutcome.exn)
        (fun _ _ => App.GemOutcome.exn)).gemInvoked = true :=
  C1_short_input "a" "medium" 3 2 (fun _ _ => App.HFOutcome.exn)
    (fun _ _ => App.GemOutcome.exn) (by decide) (fun _ _ => rfl)

/-- Counterexample to C2 as stated: the Gemini adapter call is not wrapped in
any retry loop.  Against a stub that fails its first two attempts and would
succeed from the third on, `summarize_with_gemini` returns the failure tuple
even though the policy default is R = 3 ≥ 3, because it consults the stub
only once (attempt index 0). -/
theorem C2_counterexample :
    App.summarize_with_gemini "one two three four five" "medium"
        (fun _ n => if n < 2 then App.GemOutcome.exn else App.GemOutcome.ok "S") =
      (none, none) := by
  decide

/-- C2 (amended): only the Hugging Face adapter call is wrapped in a bounded
retry loop of up to `retries` attempts (orchestrator default 3) with a fixed
sleep of `delay` (default 2) after each failed attempt; the Gemini adapter
makes a single attempt.  For the Hugging Face adapter and a stub that fails
its first two attempts and succeeds on the third: overall success exactly
when `retries ≥ 3`, overall failure when `retries < 3`, with the network
calls capped at `min retries 3` and the sleeps at `min retries 2`. -/
theorem C2_hf_retry_policy (text length : String) (retries delay : Nat)
    (net : App.HFRequest → Nat → App.HFOutcome)
    (hlong : 5 ≤ pyWords text)
    (hstub : ∀ r n, net r n =
      if n < 2 then App.HFOutcome.badStatus else App.HFOutcome.ok "S") :
    (3 ≤ retries → App.summarize_with_hf text length retries delay net =
      (some "S", some "Hugging Face")) ∧
    (retries < 3 → App.summarize_with_hf text length retries delay net =
      (none, none)) ∧
    (App.summarize_with_hfT text length retries delay net).netCalls =
      min retries 3 ∧
    (App.summarize_with_hfT text length retries delay net).sleeps =
      List.replicate (min retries 2) delay := by
  have htrace : App.summarize_with_hfT text length retries delay net =
      if 3 ≤ retries then ⟨some "S", some "Hugging Face", 3, [delay, delay]⟩
      else ⟨none, none, retries, List.replicate retries delay⟩ := by
    unfold App.summarize_with_hfT
    rw [if_neg (by omega)]
    dsimp only
    rcases retries with _ | _ | _ | k
    · simp [App.hfRetryLoop]
    · simp [App.hfRetryLoop, hstub]
    · simp [App.hfRetryLoop, hstub, List.replicate]
    · rw [if_pos (by omega)]
      simp [App.hfRetryLoop, hstub]
  refine ⟨?_, ?_, ?_, ?_⟩
  · intro h
    unfold App.summarize_with_hf
    dsimp only
    rw [htrace, if_pos h]
  · intro h
    unfold App.summarize_with_hf
    dsimp only
    rw [htrace, if_neg (by omega)]
  · rw [htrace]
    by_cases h : 3 ≤ retries
    · rw [if_pos h]
      have hm : min retries 3 = 3 := by omega
      rw [hm]
    · rw [if_neg h]
      have hm : min retries 3 = retries := by omega
      rw [hm]
  · rw [htrace]
    by_cases h : 3 ≤ retries
    · rw [if_pos h]
      have hm : min retries 2 = 2 := by omega
      rw [hm]
      rfl
    · rw [if_neg h]
      have hm : min retries 2 = retries := by omega
      rw [hm]

/-- Witness for C2 at concrete inputs: the default policy `retries = 3`,
`delay = 2` against the fails-twice-then-succeeds stub. -/
theorem C2_witness :
    (3 ≤ 3 → App.summarize_with_hf "one two three four five" "medium" 3 2
        (fun _ n => if n < 2 then App.HFOutcome.badStatus else App.HFOutcome.ok "S") =
      (some "S", some "Hugging Face")) ∧
    (3 < 3 → App.summarize_with_hf "one two three four five" "medium" 3 2
        (fun _ n => if n < 2 then App.HFOutcome.badStatus else App.HFOutcome.ok "S") =
      (none, none)) ∧
    (App.summarize_with_hfT "one two three four five" "medium" 3 2
        (fun _ n => if n < 2 then App.HFOutcome.badStatus else App.HFOutcome.ok "S")).netCalls =
      min 3 3 ∧
    (App.summarize_with_hfT "one two three four five" "medium" 3 2
        (fun _ n => if n < 2 then App.HFOutcome.badStatus else App.HFOutcome.ok "S")).sleeps =
      List.replicate (min 3 2) 2 :=
  C2_hf_retry_policy "one two three four five" "medium" 3 2
    (fun _ n => if n < 2 then App.HFOutcome.badStatus else App.HFOutcome.ok "S")
    (by decide) (fun _ _ => rfl)
